import Mathlib

/-!
# Verification of the face-swap job pipeline (`src/web.py`)

Shallow embedding of the single-endpoint job execution pipeline: the
`/v1/swap-faces` handler, its helper functions (`update_job_status`,
`get_file_extension`, `is_video_file`, `create_gif_preview`), the staged-file
naming scheme, and the unconditional cleanup in the `finally` block.

External collaborators (the Appwrite document store, the Appwrite blob
storage, the facefusion subprocess, and ffmpeg) are modelled by an
environment record `Env` that fixes the outcome of every external call the
handler makes, in program order.  The handler itself is translated
faithfully from the Python source into the function `swap_faces`, which
returns the HTTP response, the sequence of job-record update calls issued
(and the subset that the store actually applied), and the set of staged
local files created during the run and still present after the `finally`
cleanup.
-/

namespace FaceFusionApi

/-- A JSON value as used in the handler's response bodies: every value the
handler puts in a body is either a string or `null` (`preview_id = None`). -/
inductive JVal where
  | jstr : String → JVal
  | jnull : JVal
deriving DecidableEq

/-- The three staging directories created at process start
(`SOURCE_DIR`, `TARGET_DIR`, `OUTPUT_DIR`). -/
inductive Dir where
  | source
  | target
  | output
deriving DecidableEq

/-- A staged local file: which staging directory it lives in plus its
file name within that directory. -/
abbrev LPath := Dir × String

/-- The payload of one `databases.update_document` call on the jobs
collection, as built by `update_job_status` (`status`, optional `resultId`)
or by the completed-path direct update (`status`, `resultId`, optional
`mediaPreviewId`). -/
structure UpdateData where
  status : String
  resultId : Option String
  mediaPreviewId : Option String
deriving DecidableEq

/-- The fields the handler reads from the parsed JSON request body.
`none` models an absent key (`data.get(...)` returning `None`). -/
structure Payload where
  secret : Option String
  jobId : Option String
deriving DecidableEq

/-- Outcome of `request.get_json()` plus the `if not data` check:
the body failed to parse, parsed to a falsy value, or parsed to an object. -/
inductive ParseRes where
  | parseErr : String → ParseRes
  | emptyData : ParseRes
  | okData : Payload → ParseRes
deriving DecidableEq

/-- The job document fetched from the jobs collection; `faceId` / `mediaId`
are the source and target asset references (`none` models a missing key). -/
structure JobDoc where
  faceId : Option String
  mediaId : Option String
deriving DecidableEq

/-- Outcome of `databases.get_document` for the job record. -/
inductive FetchRes where
  | found : JobDoc → FetchRes
  | notFound404 : FetchRes
  | appErr : String → FetchRes
  | exnErr : String → FetchRes
deriving DecidableEq

/-- Outcome of one external storage call: success with a value, an
`AppwriteException` with message, or some other exception with message. -/
inductive CallRes (α : Type) where
  | ok : α → CallRes α
  | appErr : String → CallRes α
  | exnErr : String → CallRes α
deriving DecidableEq

/-- Observable result of the facefusion subprocess run: its exit code, the
captured output streams, and whether the output file exists afterwards. -/
structure EngineRun where
  returncode : Int
  stdout : String
  stderr : String
  outputCreated : Bool
deriving DecidableEq

/-- The environment of one request: the parsed payload and the outcome of
every external call the handler can make, in program order.  The
`processingWriteFails` / `failedWriteFails` flags say whether the document
store raises on the corresponding `update_job_status` calls (those
exceptions are caught inside `update_job_status`); `completedWrite` is the
outcome of the direct `databases.update_document` call on the completed
path (`some msg` means it raises with that message). -/
structure Env where
  scriptExists : Bool
  payload : ParseRes
  fetchJob : FetchRes
  sourceMeta : CallRes String
  targetMeta : CallRes String
  processingWriteFails : Bool
  failedWriteFails : Bool
  sourceTok : String
  targetTok : String
  outputTok : String
  previewTok : String
  sourceDl : CallRes Unit
  targetDl : CallRes Unit
  engine : EngineRun
  resultUpload : CallRes String
  ffmpegPresent : Bool
  gifOk : Bool
  previewUpload : CallRes String
  completedWrite : Option String
deriving DecidableEq

/-- Process-wide configuration: the endpoint secret (nonempty, enforced at
startup) and the string form of the output staging directory (used when the
handler calls `is_video_file(output_path)` on the full path). -/
structure Config where
  secret : String
  outputDirStr : String
deriving DecidableEq

/-- Everything observable about one run of the handler: HTTP status code and
JSON body, the job-record update calls issued and the ones the store
applied, whether the job record was fetched and whether downloads were
attempted, the staged files created during the run, and the staged files
still on disk after the `finally` cleanup. -/
structure RunResult where
  code : Nat
  body : List (String × JVal)
  writesIssued : List (String × UpdateData)
  writesApplied : List (String × UpdateData)
  fetchAttempted : Bool
  downloadAttempted : Bool
  filesCreated : List LPath
  filesRemaining : List LPath
deriving DecidableEq

/-- Key lookup in a JSON response body. -/
def bodyGet (key : String) : List (String × JVal) → Option JVal
  | [] => none
  | (k, v) :: rest => if k = key then some v else bodyGet key rest

/-- Python truthiness of an optional string (`if not x` on `None` or `""`). -/
def truthy : Option String → Bool
  | none => false
  | some s => decide (s ≠ "")

/-- The data dict built by `update_job_status(job_id, status, result_id)`:
`{'status': status}` plus `resultId` when `result_id` is truthy. -/
def mkUpdateData (status : String) (result_id : Option String) : UpdateData :=
  { status := status
    resultId := if truthy result_id then result_id else none
    mediaPreviewId := none }

/-- The `update_job_status(job_id, 'failed')` call payload. -/
def failedUpd (j : String) : String × UpdateData :=
  (j, mkUpdateData "failed" none)

/-- Index of the last occurrence of a character in a list, if any. -/
def lastIdx (c : Char) : List Char → Option Nat
  | [] => none
  | a :: as =>
    match lastIdx c as with
    | some i => some (i + 1)
    | none => if a = c then some 0 else none

/-- The extension part of CPython `os.path.splitext`: the suffix from the
last dot, provided that dot lies after the last path separator and some
non-dot character of the basename precedes it (so dotfiles like `.bashrc`
have no extension). -/
def splitextExt (s : String) : String :=
  match lastIdx '.' s.data with
  | none => ""
  | some d =>
    let fstart : Nat :=
      match lastIdx '/' s.data with
      | some i => i + 1
      | none => 0
    if (List.range d).any (fun k => decide (fstart ≤ k) && decide (s.data[k]? ≠ some '.')) then
      { data := s.data.drop d }
    else ""

/-- Character membership in a string, modelling Python's `c in s` for a
single-character needle. -/
def hasChar (c : Char) (s : String) : Bool :=
  s.data.contains c

/-- ASCII model of Python `str.lower()`. -/
def strLower (s : String) : String :=
  { data := s.data.map Char.toLower }

/-- `get_file_extension` from `src/web.py`: empty for falsy input or input
without a dot, otherwise the lower-cased `splitext` extension. -/
def get_file_extension (filename : String) : String :=
  if filename = "" ∨ hasChar '.' filename = false then ""
  else strLower (splitextExt filename)

/-- `is_video_file` from `src/web.py`: extension membership in the fixed
allow-list `['.mp4', '.mov']`. -/
def is_video_file (p : String) : Bool :=
  [".mp4", ".mov"].contains (get_file_extension p)

/-- Local source file name: `f"{job_id}_source_{uuid.uuid4().hex}{source_ext}"`. -/
def mkSourceName (jobId tok ext : String) : String :=
  jobId ++ "_source_" ++ tok ++ ext

/-- Local target file name: `f"{job_id}_target_{uuid.uuid4().hex}{target_ext}"`. -/
def mkTargetName (jobId tok ext : String) : String :=
  jobId ++ "_target_" ++ tok ++ ext

/-- Output file name: `f"result_{job_id}_{uuid.uuid4().hex}{target_ext}"`. -/
def mkOutputName (jobId tok ext : String) : String :=
  "result_" ++ jobId ++ "_" ++ tok ++ ext

/-- Preview file name: `f"preview_{job_id}_{uuid.uuid4().hex}.gif"`. -/
def mkPreviewName (jobId tok : String) : String :=
  "preview_" ++ jobId ++ "_" ++ tok ++ ".gif"

/-- The failure-branch error message of the handler: base text plus the
collected detail fragments in parentheses. -/
def engineFailMsg (rc : Int) (outputCreated : Bool) : String :=
  let ds :=
    (if rc ≠ 0 then ["Return code: " ++ toString rc] else []) ++
    (if outputCreated = false then ["Output file not created."] else [])
  "Face swapping process failed." ++
    (if ds.isEmpty then " (Unknown reason)"
     else " (" ++ String.intercalate "; " ds ++ ")")

/-- `process.stderr or "No stderr output."`. -/
def stderrOr (s : String) : String :=
  if s = "" then "No stderr output." else s

/-- Assemble a `RunResult` at an exit point of the handler.  `cleanup` is
the list of paths held by the `face_path` / `media_path` / `output_path`
variables when the `finally` block runs; the block unlinks each of them
that exists, so the files remaining are the created ones not in that list. -/
def finalize (code : Nat) (body : List (String × JVal))
    (wsI : List (String × UpdateData)) (fa da : Bool)
    (created cleanup : List LPath) : RunResult :=
  { code := code
    body := body
    writesIssued := wsI
    writesApplied := []
    fetchAttempted := fa
    downloadAttempted := da
    filesCreated := created
    filesRemaining := created.filter (fun p => decide (p ∉ cleanup)) }

/-- The output file name of a run (line 231 of `src/web.py`). -/
def outName (env : Env) (j tgtExt : String) : String :=
  mkOutputName j env.outputTok tgtExt

/-- `str(output_path)`: the output directory string joined with the output
file name. -/
def outPathStr (cfg : Config) (env : Env) (j tgtExt : String) : String :=
  cfg.outputDirStr ++ "/" ++ outName env j tgtExt

/-- The guard of the preview block:
`is_video_file(output_path) and shutil.which('ffmpeg')`. -/
def previewAttempt (cfg : Config) (env : Env) (j tgtExt : String) : Bool :=
  is_video_file (outPathStr cfg env j tgtExt) && env.ffmpegPresent

/-- The value of the `preview_id` variable when the completed-path update is
built: set only when the output classifies as video, ffmpeg is on the host,
`create_gif_preview` returned true, and the preview upload returned an id.
(When the upload succeeds, the following `files_to_delete.append` raises
`UnboundLocalError`, which the same `except Exception` clause catches after
`preview_id` was already assigned, so the id is kept.) -/
def previewIdOf (cfg : Config) (env : Env) (j tgtExt : String) : Option String :=
  if previewAttempt cfg env j tgtExt = true then
    if env.gifOk = true then
      match env.previewUpload with
      | CallRes.ok pid => some pid
      | CallRes.appErr _ => none
      | CallRes.exnErr _ => none
    else none
  else none

/-- Whether a preview gif file was produced on disk: the preview block ran
and `create_gif_preview` succeeded. -/
def previewFileMade (cfg : Config) (env : Env) (j tgtExt : String) : Bool :=
  previewAttempt cfg env j tgtExt && env.gifOk

/-- The preview gif path of a run (line 274 of `src/web.py`); the gif is
written into `OUTPUT_DIR`. -/
def previewPathOf (env : Env) (j : String) : LPath :=
  (Dir.output, mkPreviewName j env.previewTok)

/-- The completed-path document update (lines 293-303 of `src/web.py`):
`{'status': 'completed', 'resultId': result_id}` plus `mediaPreviewId` when
`preview_id` is truthy. -/
def completedUpd (cfg : Config) (env : Env) (j tgtExt rid : String) :
    String × UpdateData :=
  (j, { status := "completed"
        resultId := some rid
        mediaPreviewId :=
          if truthy (previewIdOf cfg env j tgtExt) then previewIdOf cfg env j tgtExt
          else none })

/-- Lines 231-363 of `src/web.py`: run the facefusion subprocess, branch on
`process.returncode == 0 and output_path.exists()`, upload the result,
optionally build and upload a gif preview, write the terminal job update,
and clean up.  `wsI` carries the update calls issued so far (the
`processing` update). -/
def runTransform (cfg : Config) (env : Env) (j tgtExt : String)
    (faceP mediaP : LPath) (wsI : List (String × UpdateData)) : RunResult :=
  let outP : LPath := (Dir.output, outName env j tgtExt)
  let created0 : List LPath :=
    if env.engine.outputCreated then [faceP, mediaP, outP] else [faceP, mediaP]
  if env.engine.returncode = 0 ∧ env.engine.outputCreated = true then
    match env.resultUpload with
    | CallRes.appErr m =>
      finalize 500
        [("error", JVal.jstr "Failed to upload result file."), ("details", JVal.jstr m)]
        (wsI ++ [failedUpd j])
        true true created0 [faceP, mediaP, outP]
    | CallRes.exnErr m =>
      finalize 500
        [("error", JVal.jstr "Failed to upload result file."), ("details", JVal.jstr m)]
        (wsI ++ [failedUpd j])
        true true created0 [faceP, mediaP, outP]
    | CallRes.ok rid =>
      let created1 : List LPath :=
        if previewFileMade cfg env j tgtExt then created0 ++ [previewPathOf env j]
        else created0
      let wc : String × UpdateData := completedUpd cfg env j tgtExt rid
      match env.completedWrite with
      | none =>
        finalize 200
          [("status", JVal.jstr "success"), ("jobId", JVal.jstr j),
           ("resultId", JVal.jstr rid),
           ("previewId",
             match previewIdOf cfg env j tgtExt with
             | some p => JVal.jstr p
             | none => JVal.jnull)]
          (wsI ++ [wc]) true true created1 [faceP, mediaP, outP]
      | some m =>
        finalize 500
          [("error", JVal.jstr "Failed to upload result file."), ("details", JVal.jstr m)]
          (wsI ++ [wc, failedUpd j])
          true true created1 [faceP, mediaP, outP]
  else
    finalize 500
      [("status", JVal.jstr "error"), ("jobId", JVal.jstr j),
       ("message", JVal.jstr (engineFailMsg env.engine.returncode env.engine.outputCreated)),
       ("details", JVal.jstr (stderrOr env.engine.stderr))]
      (wsI ++ [failedUpd j])
      true true created0 [faceP, mediaP, outP]

/-- Lines 207-229 of `src/web.py`: download the two assets into the staging
area (the source file is written before the target download starts), then
hand over to the transformation step. -/
def runDownload (cfg : Config) (env : Env) (j tgtExt : String)
    (faceP mediaP : LPath) (wsI : List (String × UpdateData)) : RunResult :=
  match env.sourceDl with
  | CallRes.appErr m =>
    finalize 500
      [("error", JVal.jstr "Failed to download media files."), ("details", JVal.jstr m)]
      (wsI ++ [failedUpd j])
      true true [] [faceP, mediaP]
  | CallRes.exnErr m =>
    finalize 500
      [("error", JVal.jstr "Failed to save media files locally."), ("details", JVal.jstr m)]
      (wsI ++ [failedUpd j])
      true true [] [faceP, mediaP]
  | CallRes.ok _ =>
    match env.targetDl with
    | CallRes.appErr m =>
      finalize 500
        [("error", JVal.jstr "Failed to download media files."), ("details", JVal.jstr m)]
        (wsI ++ [failedUpd j])
        true true [faceP] [faceP, mediaP]
    | CallRes.exnErr m =>
      finalize 500
        [("error", JVal.jstr "Failed to save media files locally."), ("details", JVal.jstr m)]
        (wsI ++ [failedUpd j])
        true true [faceP] [faceP, mediaP]
    | CallRes.ok _ =>
      runTransform cfg env j tgtExt faceP mediaP wsI

/-- Lines 179-232 of `src/web.py`: fetch both file metadata records (an
`AppwriteException` is handled at line 188, any other exception falls
through to the outer handler at line 346), issue the best-effort
`processing` update, derive extensions and staged file names, and download.
-/
def runStaging (cfg : Config) (env : Env) (j : String) : RunResult :=
  match env.sourceMeta with
  | CallRes.appErr m =>
    finalize 500
      [("error", JVal.jstr "Failed to get media file details."), ("details", JVal.jstr m)]
      [failedUpd j]
      true false [] []
  | CallRes.exnErr _ =>
    finalize 500
      [("error", JVal.jstr "An internal server error occurred during processing.")]
      [failedUpd j]
      true false [] []
  | CallRes.ok srcName =>
    match env.targetMeta with
    | CallRes.appErr m =>
      finalize 500
        [("error", JVal.jstr "Failed to get media file details."), ("details", JVal.jstr m)]
        [failedUpd j]
        true false [] []
    | CallRes.exnErr _ =>
      finalize 500
        [("error", JVal.jstr "An internal server error occurred during processing.")]
        [failedUpd j]
        true false [] []
    | CallRes.ok tgtName =>
      runDownload cfg env j (get_file_extension tgtName)
        (Dir.source, mkSourceName j env.sourceTok (get_file_extension srcName))
        (Dir.target, mkTargetName j env.targetTok (get_file_extension tgtName))
        [(j, mkUpdateData "processing" none)]

/-- Lines 144-177 of `src/web.py`: fetch the job record.  A 404 from the
store yields a 404 response with no status write; other store errors yield
500 with no status write; a record missing `faceId` or `mediaId` yields a
`failed` status write and a 400 response before any download. -/
def runPipeline (cfg : Config) (env : Env) (j : String) : RunResult :=
  match env.fetchJob with
  | FetchRes.notFound404 =>
    finalize 404 [("error", JVal.jstr ("Job document not found: " ++ j))]
      [] true false [] []
  | FetchRes.appErr m =>
    finalize 500
      [("error", JVal.jstr "Failed to fetch job details."), ("details", JVal.jstr m)]
      [] true false [] []
  | FetchRes.exnErr _ =>
    finalize 500 [("error", JVal.jstr "Internal server error during job fetch.")]
      [] true false [] []
  | FetchRes.found doc =>
    if truthy doc.faceId = false ∨ truthy doc.mediaId = false then
      finalize 400 [("error", JVal.jstr "Missing faceId or mediaId in job document")]
        [failedUpd j]
        true false [] []
    else
      runStaging cfg env j

/-- Lines 116-143 of `src/web.py`: the request gate.  Script presence is
checked first, then JSON parsing, then the shared secret, then `jobId`;
only after all of these does the job pipeline start.  This function records
the update calls issued; which of them the store applied is computed by
`appliedOf` in the `swap_faces` wrapper below. -/
def swap_facesI (cfg : Config) (env : Env) : RunResult :=
  if env.scriptExists = false then
    finalize 500
      [("error", JVal.jstr "Server configuration error: Processing script missing.")]
      [] false false [] []
  else
    match env.payload with
    | ParseRes.parseErr m =>
      finalize 400 [("error", JVal.jstr ("Failed to parse JSON payload: " ++ m))]
        [] false false [] []
    | ParseRes.emptyData =>
      finalize 400 [("error", JVal.jstr "Invalid JSON payload")]
        [] false false [] []
    | ParseRes.okData data =>
      match data.secret with
      | none =>
        finalize 401 [("error", JVal.jstr "Unauthorized")] [] false false [] []
      | some s =>
        if s = "" ∨ s ≠ cfg.secret then
          finalize 401 [("error", JVal.jstr "Unauthorized")] [] false false [] []
        else
          match data.jobId with
          | none =>
            finalize 400 [("error", JVal.jstr "Missing 'jobId' parameter")]
              [] false false [] []
          | some j =>
            if j = "" then
              finalize 400 [("error", JVal.jstr "Missing 'jobId' parameter")]
                [] false false [] []
            else
              runPipeline cfg env j

/-- Which of the issued job-record updates the document store actually
applied: an `update_job_status` call for `processing` or `failed` is lost
exactly when the store raises on it (the handler catches and logs the
exception either way), and the direct completed-path update is lost exactly
when it raises (`completedWrite = some msg`; in that case the handler's
upload `except` clauses take over). -/
def appliedOf (env : Env) (ws : List (String × UpdateData)) : List (String × UpdateData) :=
  ws.filter (fun w =>
    if w.2.status = "processing" then !env.processingWriteFails
    else if w.2.status = "failed" then !env.failedWriteFails
    else decide (env.completedWrite = none))

/-- One full run of the `/v1/swap-faces` handler: the response, issued and
applied job-record updates, and the staged-file accounting. -/
def swap_faces (cfg : Config) (env : Env) : RunResult :=
  let r := swap_facesI cfg env
  { r with writesApplied := appliedOf env r.writesIssued }

/-! ## Plumbing lemmas -/

theorem swap_faces_code (cfg : Config) (env : Env) :
    (swap_faces cfg env).code = (swap_facesI cfg env).code := rfl

theorem swap_faces_body (cfg : Config) (env : Env) :
    (swap_faces cfg env).body = (swap_facesI cfg env).body := rfl

theorem swap_faces_writesIssued (cfg : Config) (env : Env) :
    (swap_faces cfg env).writesIssued = (swap_facesI cfg env).writesIssued := rfl

theorem swap_faces_writesApplied (cfg : Config) (env : Env) :
    (swap_faces cfg env).writesApplied =
      appliedOf env (swap_facesI cfg env).writesIssued := rfl

theorem swap_faces_downloadAttempted (cfg : Config) (env : Env) :
    (swap_faces cfg env).downloadAttempted = (swap_facesI cfg env).downloadAttempted := rfl

theorem swap_faces_fetchAttempted (cfg : Config) (env : Env) :
    (swap_faces cfg env).fetchAttempted = (swap_facesI cfg env).fetchAttempted := rfl

theorem swap_faces_filesCreated (cfg : Config) (env : Env) :
    (swap_faces cfg env).filesCreated = (swap_facesI cfg env).filesCreated := rfl

theorem swap_faces_filesRemaining (cfg : Config) (env : Env) :
    (swap_faces cfg env).filesRemaining = (swap_facesI cfg env).filesRemaining := rfl

/-- A run that clears the request gate, finds a job record carrying both
asset references, resolves both metadata records, and downloads both assets
— i.e. a run that reaches the transformation step (line 245). -/
def ReachesEngine (cfg : Config) (env : Env) (j : String) (doc : JobDoc)
    (srcName tgtName : String) : Prop :=
  env.scriptExists = true ∧
  env.payload = ParseRes.okData { secret := some cfg.secret, jobId := some j } ∧
  cfg.secret ≠ "" ∧ j ≠ "" ∧
  env.fetchJob = FetchRes.found doc ∧
  truthy doc.faceId = true ∧ truthy doc.mediaId = true ∧
  env.sourceMeta = CallRes.ok srcName ∧ env.targetMeta = CallRes.ok tgtName ∧
  env.sourceDl = CallRes.ok () ∧ env.targetDl = CallRes.ok ()

/-- On a request that clears the script, parse, secret and jobId gates, the
handler's behaviour is that of `runPipeline`. -/
theorem swap_facesI_gate (cfg : Config) (env : Env) (j : String)
    (h1 : env.scriptExists = true)
    (h2 : env.payload = ParseRes.okData { secret := some cfg.secret, jobId := some j })
    (h3 : cfg.secret ≠ "") (h4 : j ≠ "") :
    swap_facesI cfg env = runPipeline cfg env j := by
  simp [swap_facesI, h1, h2, h3, h4]

/-- On a run that reaches the transformation step, the handler's behaviour
is that of `runTransform` with the staged paths and the issued `processing`
update. -/
theorem swap_facesI_reaches (cfg : Config) (env : Env) (j : String) (doc : JobDoc)
    (sn tn : String) (h : ReachesEngine cfg env j doc sn tn) :
    swap_facesI cfg env =
      runTransform cfg env j (get_file_extension tn)
        (Dir.source, mkSourceName j env.sourceTok (get_file_extension sn))
        (Dir.target, mkTargetName j env.targetTok (get_file_extension tn))
        [(j, mkUpdateData "processing" none)] := by
  obtain ⟨h1, h2, h3, h4, h5, h6, h7, h8, h9, h10, h11⟩ := h
  simp only [swap_facesI, h1, h2, runPipeline, h5, h6, h7, runStaging, h8, h9,
    runDownload, h10, h11]
  simp [h3, h4]

/-! ## Concrete runs used as witnesses and counterexamples -/

/-- Configuration with a nonempty secret, as the startup checks enforce. -/
def cfg0 : Config := { secret := "s3cret", outputDirStr := "/app/uploads/output" }

/-- A 32-character token standing for a `uuid.uuid4().hex` value. -/
def tok32a : String := "aaaaaaaaaaaaaaaaaaaaaaaaaaaaaaaa"

/-- A second distinct 32-character token. -/
def tok32b : String := "bbbbbbbbbbbbbbbbbbbbbbbbbbbbbbbb"

/-- A third distinct 32-character token. -/
def tok32c : String := "cccccccccccccccccccccccccccccccc"

/-- A fourth distinct 32-character token. -/
def tok32d : String := "dddddddddddddddddddddddddddddddd"

/-- The all-zero 32-character hex token. -/
def zeros32 : String := "00000000000000000000000000000000"

/-- A fully successful run on a video target: authorized request, job record
with both asset ids, metadata and downloads succeed, the engine exits 0 and
produces the output, the result upload succeeds, ffmpeg is present, the gif
preview is created and uploaded, and the completed update is applied. -/
def envHappyVideo : Env :=
  { scriptExists := true
    payload := ParseRes.okData { secret := some "s3cret", jobId := some "job1" }
    fetchJob := FetchRes.found { faceId := some "face1", mediaId := some "media1" }
    sourceMeta := CallRes.ok "face.jpg"
    targetMeta := CallRes.ok "clip.MP4"
    processingWriteFails := false
    failedWriteFails := false
    sourceTok := tok32a
    targetTok := tok32b
    outputTok := tok32c
    previewTok := tok32d
    sourceDl := CallRes.ok ()
    targetDl := CallRes.ok ()
    engine := { returncode := 0, stdout := "done", stderr := "", outputCreated := true }
    resultUpload := CallRes.ok "res1"
    ffmpegPresent := true
    gifOk := true
    previewUpload := CallRes.ok "prev1"
    completedWrite := none }

/-- The happy run except that the engine exits 1 without an output file. -/
def envEngineFail : Env :=
  { envHappyVideo with
    engine := { returncode := 1, stdout := "", stderr := "boom", outputCreated := false } }

/-- The happy run except that ffmpeg is absent from the host. -/
def envNoFfmpeg : Env :=
  { envHappyVideo with ffmpegPresent := false }

/-- The happy run except that the completed-status document update raises. -/
def envCompletedRaise : Env :=
  { envHappyVideo with completedWrite := some "db down" }

/-- A request with a wrong secret arriving while the facefusion script is
missing from the server. -/
def envNoScriptBadSecret : Env :=
  { envHappyVideo with
    scriptExists := false
    payload := ParseRes.okData { secret := some "wrong", jobId := some "job1" } }

/-- The job document used by the concrete runs above. -/
def doc0 : JobDoc := { faceId := some "face1", mediaId := some "media1" }

/-! ## Claims -/

/-- Claim C1: on every run that reaches the transformation step, the
pipeline classifies the transformation as successful if and only if the
subprocess exits with return code 0 and the output path exists afterwards;
in every other case it takes the failure branch, observable as the 500
response whose body opens with `status: error`. -/
theorem transform_success_iff_rc0_and_output
    (cfg : Config) (env : Env) (j : String) (doc : JobDoc) (sn tn : String)
    (h : ReachesEngine cfg env j doc sn tn) :
    ((swap_faces cfg env).code = 500 ∧
      bodyGet "status" (swap_faces cfg env).body = some (JVal.jstr "error"))
      ↔ ¬(env.engine.returncode = 0 ∧ env.engine.outputCreated = true) := by
  rw [swap_faces_code, swap_faces_body, swap_facesI_reaches cfg env j doc sn tn h]
  by_cases hc : env.engine.returncode = 0 ∧ env.engine.outputCreated = true
  · cases hru : env.resultUpload <;>
      cases hcw : env.completedWrite <;>
        simp [runTransform, finalize, bodyGet, hc, hru, hcw]
  · simp [runTransform, finalize, bodyGet, hc]

/-- Witness for C1 at a concrete failing engine run. -/
theorem transform_success_iff_rc0_and_output_witness :
    ((swap_faces cfg0 envEngineFail).code = 500 ∧
      bodyGet "status" (swap_faces cfg0 envEngineFail).body = some (JVal.jstr "error"))
      ↔ ¬(envEngineFail.engine.returncode = 0 ∧
          envEngineFail.engine.outputCreated = true) :=
  transform_success_iff_rc0_and_output cfg0 envEngineFail "job1" doc0
    "face.jpg" "clip.MP4"
    ⟨rfl, rfl, by decide, by decide, rfl, by decide, by decide, rfl, rfl, rfl, rfl⟩

/-- Claim C3: on every run that reaches the transformation step and where
the process exits non-zero or the output file is absent, the pipeline
issues a `failed` status write, none of its status writes carries a result
asset identifier, and it returns a 500 response whose `details` field
carries the captured stderr diagnostic (or the `No stderr output.`
placeholder). -/
theorem failure_branch_marks_failed_no_result
    (cfg : Config) (env : Env) (j : String) (doc : JobDoc) (sn tn : String)
    (h : ReachesEngine cfg env j doc sn tn)
    (hfail : ¬(env.engine.returncode = 0 ∧ env.engine.outputCreated = true)) :
    failedUpd j ∈ (swap_faces cfg env).writesIssued ∧
    (∀ w ∈ (swap_faces cfg env).writesIssued, w.2.resultId = none) ∧
    (swap_faces cfg env).code = 500 ∧
    bodyGet "details" (swap_faces cfg env).body =
      some (JVal.jstr (stderrOr env.engine.stderr)) := by
  rw [swap_faces_writesIssued, swap_faces_code, swap_faces_body,
    swap_facesI_reaches cfg env j doc sn tn h]
  simp [runTransform, finalize, bodyGet, hfail, mkUpdateData, failedUpd, truthy]

/-- Witness for C3 at a concrete failing engine run. -/
theorem failure_branch_marks_failed_no_result_witness :
    failedUpd "job1" ∈ (swap_faces cfg0 envEngineFail).writesIssued ∧
    (∀ w ∈ (swap_faces cfg0 envEngineFail).writesIssued, w.2.resultId = none) ∧
    (swap_faces cfg0 envEngineFail).code = 500 ∧
    bodyGet "details" (swap_faces cfg0 envEngineFail).body =
      some (JVal.jstr (stderrOr "boom")) :=
  failure_branch_marks_failed_no_result cfg0 envEngineFail "job1" doc0
    "face.jpg" "clip.MP4"
    ⟨rfl, rfl, by decide, by decide, rfl, by decide, by decide, rfl, rfl, rfl, rfl⟩
    (by decide)

/-- Claim C2: on every run that reaches the transformation step, where the
engine exits 0 with the output present, the result upload returns a fresh
identifier, and the terminal document update does not raise, the store
applies a `completed` update carrying that identifier, and the handler
returns 200 with the same identifier in `resultId`.  Freshness of the
uploaded identifier with respect to the job's asset identifiers is the blob
store's contract (`ID.unique()`), taken here as the hypothesis `hfresh`. -/
theorem completed_write_and_success_response
    (cfg : Config) (env : Env) (j : String) (doc : JobDoc)
    (sn tn fi mi rid : String)
    (h : ReachesEngine cfg env j doc sn tn)
    (hfi : doc.faceId = some fi) (hmi : doc.mediaId = some mi)
    (hrc : env.engine.returncode = 0) (hout : env.engine.outputCreated = true)
    (hup : env.resultUpload = CallRes.ok rid)
    (hcw : env.completedWrite = none)
    (hfresh : rid ≠ fi ∧ rid ≠ mi) :
    (∃ w ∈ (swap_faces cfg env).writesApplied,
      w.1 = j ∧ w.2.status = "completed" ∧ w.2.resultId = some rid) ∧
    (swap_faces cfg env).code = 200 ∧
    bodyGet "status" (swap_faces cfg env).body = some (JVal.jstr "success") ∧
    bodyGet "jobId" (swap_faces cfg env).body = some (JVal.jstr j) ∧
    bodyGet "resultId" (swap_faces cfg env).body = some (JVal.jstr rid) ∧
    rid ≠ fi ∧ rid ≠ mi := by
  rw [swap_faces_writesApplied, swap_faces_code, swap_faces_body,
    swap_facesI_reaches cfg env j doc sn tn h]
  refine ⟨?_, ?_⟩
  · refine ⟨completedUpd cfg env j (get_file_extension tn) rid, ?_, rfl, rfl, rfl⟩
    have hws : (runTransform cfg env j (get_file_extension tn)
        (Dir.source, mkSourceName j env.sourceTok (get_file_extension sn))
        (Dir.target, mkTargetName j env.targetTok (get_file_extension tn))
        [(j, mkUpdateData "processing" none)]).writesIssued =
        [(j, mkUpdateData "processing" none),
         completedUpd cfg env j (get_file_extension tn) rid] := by
      simp [runTransform, finalize, hrc, hout, hup, hcw]
    rw [hws]
    unfold appliedOf
    refine List.mem_filter.2 ⟨by simp, ?_⟩
    simp [completedUpd, hcw]
  · refine ⟨?_, ?_, ?_, ?_, hfresh.1, hfresh.2⟩ <;>
      simp [runTransform, finalize, hrc, hout, hup, hcw, bodyGet]

/-- Witness for C2 at the concrete fully successful run. -/
theorem completed_write_and_success_response_witness :
    (∃ w ∈ (swap_faces cfg0 envHappyVideo).writesApplied,
      w.1 = "job1" ∧ w.2.status = "completed" ∧ w.2.resultId = some "res1") ∧
    (swap_faces cfg0 envHappyVideo).code = 200 ∧
    bodyGet "status" (swap_faces cfg0 envHappyVideo).body = some (JVal.jstr "success") ∧
    bodyGet "jobId" (swap_faces cfg0 envHappyVideo).body = some (JVal.jstr "job1") ∧
    bodyGet "resultId" (swap_faces cfg0 envHappyVideo).body = some (JVal.jstr "res1") ∧
    "res1" ≠ "face1" ∧ "res1" ≠ "media1" :=
  completed_write_and_success_response cfg0 envHappyVideo "job1" doc0
    "face.jpg" "clip.MP4" "face1" "media1" "res1"
    ⟨rfl, rfl, by decide, by decide, rfl, by decide, by decide, rfl, rfl, rfl, rfl⟩
    rfl rfl rfl rfl rfl rfl (by decide)

/-- Claim C7: on every authorized request whose job record exists but lacks
a source or target asset reference, the handler issues exactly one status
write (`failed`), returns 400 with the corresponding error body, and never
attempts a download. -/
theorem missing_asset_ids_fail_fast
    (cfg : Config) (env : Env) (j : String) (doc : JobDoc)
    (h1 : env.scriptExists = true)
    (h2 : env.payload = ParseRes.okData { secret := some cfg.secret, jobId := some j })
    (h3 : cfg.secret ≠ "") (h4 : j ≠ "")
    (h5 : env.fetchJob = FetchRes.found doc)
    (h6 : truthy doc.faceId = false ∨ truthy doc.mediaId = false) :
    (swap_faces cfg env).code = 400 ∧
    (swap_faces cfg env).body =
      [("error", JVal.jstr "Missing faceId or mediaId in job document")] ∧
    (swap_faces cfg env).writesIssued = [failedUpd j] ∧
    (swap_faces cfg env).downloadAttempted = false := by
  rw [swap_faces_code, swap_faces_body, swap_faces_writesIssued,
    swap_faces_downloadAttempted, swap_facesI_gate cfg env j h1 h2 h3 h4]
  rcases h6 with h6 | h6 <;> simp [runPipeline, h5, h6, finalize]

/-- Witness for C7 at a concrete job record lacking `mediaId`. -/
theorem missing_asset_ids_fail_fast_witness :
    (swap_faces cfg0
      { envHappyVideo with
        fetchJob := FetchRes.found { faceId := some "face1", mediaId := none } }).code = 400 ∧
    (swap_faces cfg0
      { envHappyVideo with
        fetchJob := FetchRes.found { faceId := some "face1", mediaId := none } }).body =
      [("error", JVal.jstr "Missing faceId or mediaId in job document")] ∧
    (swap_faces cfg0
      { envHappyVideo with
        fetchJob := FetchRes.found { faceId := some "face1", mediaId := none } }).writesIssued =
      [failedUpd "job1"] ∧
    (swap_faces cfg0
      { envHappyVideo with
        fetchJob := FetchRes.found { faceId := some "face1", mediaId := none } }).downloadAttempted =
      false :=
  missing_asset_ids_fail_fast cfg0
    { envHappyVideo with
      fetchJob := FetchRes.found { faceId := some "face1", mediaId := none } }
    "job1" { faceId := some "face1", mediaId := none }
    rfl rfl (by decide) (by decide) rfl (Or.inr (by decide))

/-- Claim C6 (amended): provided the facefusion script is present and the
request body parses to a non-empty JSON object, a request whose secret is
absent or different from the configured secret yields 401 with no
job-record fetch, no status write, and no staged files. -/
theorem bad_secret_rejected_no_side_effects
    (cfg : Config) (env : Env) (p : Payload)
    (h1 : env.scriptExists = true) (h2 : env.payload = ParseRes.okData p)
    (hbad : p.secret = none ∨ ∃ s, p.secret = some s ∧ s ≠ cfg.secret) :
    (swap_faces cfg env).code = 401 ∧
    (swap_faces cfg env).body = [("error", JVal.jstr "Unauthorized")] ∧
    (swap_faces cfg env).writesIssued = [] ∧
    (swap_faces cfg env).writesApplied = [] ∧
    (swap_faces cfg env).fetchAttempted = false ∧
    (swap_faces cfg env).filesCreated = [] ∧
    (swap_faces cfg env).filesRemaining = [] := by
  have hI : swap_facesI cfg env =
      finalize 401 [("error", JVal.jstr "Unauthorized")] [] false false [] [] := by
    rcases hbad with hb | ⟨s, hs, hne⟩
    · simp [swap_facesI, h1, h2, hb]
    · simp [swap_facesI, h1, h2, hs, hne]
  rw [swap_faces_code, swap_faces_body, swap_faces_writesIssued,
    swap_faces_writesApplied, swap_faces_fetchAttempted, swap_faces_filesCreated,
    swap_faces_filesRemaining, hI]
  simp [finalize, appliedOf]

/-- Witness for the amended C6 at a concrete wrong-secret request. -/
theorem bad_secret_rejected_no_side_effects_witness :
    (swap_faces cfg0
      { envHappyVideo with
        payload := ParseRes.okData { secret := some "wrong", jobId := some "job1" } }).code = 401 ∧
    (swap_faces cfg0
      { envHappyVideo with
        payload := ParseRes.okData { secret := some "wrong", jobId := some "job1" } }).body =
      [("error", JVal.jstr "Unauthorized")] ∧
    (swap_faces cfg0
      { envHappyVideo with
        payload := ParseRes.okData { secret := some "wrong", jobId := some "job1" } }).writesIssued = [] ∧
    (swap_faces cfg0
      { envHappyVideo with
        payload := ParseRes.okData { secret := some "wrong", jobId := some "job1" } }).writesApplied = [] ∧
    (swap_faces cfg0
      { envHappyVideo with
        payload := ParseRes.okData { secret := some "wrong", jobId := some "job1" } }).fetchAttempted = false ∧
    (swap_faces cfg0
      { envHappyVideo with
        payload := ParseRes.okData { secret := some "wrong", jobId := some "job1" } }).filesCreated = [] ∧
    (swap_faces cfg0
      { envHappyVideo with
        payload := ParseRes.okData { secret := some "wrong", jobId := some "job1" } }).filesRemaining = [] :=
  bad_secret_rejected_no_side_effects cfg0
    { envHappyVideo with
      payload := ParseRes.okData { secret := some "wrong", jobId := some "job1" } }
    { secret := some "wrong", jobId := some "job1" }
    rfl rfl (Or.inr ⟨"wrong", rfl, by decide⟩)

/-- Counterexample to C6 as stated: when the facefusion script is missing
from the server, a request with a wrong secret is answered 500 (the script
check at line 118 precedes the secret check at line 130), not 401. -/
theorem bad_secret_not_always_401 :
    envNoScriptBadSecret.payload =
      ParseRes.okData { secret := some "wrong", jobId := some "job1" } ∧
    "wrong" ≠ cfg0.secret ∧
    (swap_faces cfg0 envNoScriptBadSecret).code = 500 ∧
    (swap_faces cfg0 envNoScriptBadSecret).code ≠ 401 := by
  refine ⟨rfl, by decide, rfl, by decide⟩

/-- Claim C8: on every run where the transformation succeeded and the
result upload succeeded (and the terminal update is applied), any failure
of the preview step — the output not classifying as video, ffmpeg absent,
`create_gif_preview` returning false, or the preview upload raising — is
non-propagating: the store still applies the `completed` update carrying
the result identifier and no preview field, and the handler still returns
200 with `previewId` null. -/
theorem preview_failure_nonpropagating
    (cfg : Config) (env : Env) (j : String) (doc : JobDoc) (sn tn rid : String)
    (h : ReachesEngine cfg env j doc sn tn)
    (hrc : env.engine.returncode = 0) (hout : env.engine.outputCreated = true)
    (hup : env.resultUpload = CallRes.ok rid)
    (hcw : env.completedWrite = none)
    (hpf : is_video_file (outPathStr cfg env j (get_file_extension tn)) = false ∨
           env.ffmpegPresent = false ∨ env.gifOk = false ∨
           (∀ p, env.previewUpload ≠ CallRes.ok p)) :
    (swap_faces cfg env).code = 200 ∧
    bodyGet "status" (swap_faces cfg env).body = some (JVal.jstr "success") ∧
    bodyGet "resultId" (swap_faces cfg env).body = some (JVal.jstr rid) ∧
    bodyGet "previewId" (swap_faces cfg env).body = some JVal.jnull ∧
    (j, { status := "completed", resultId := some rid, mediaPreviewId := none })
      ∈ (swap_faces cfg env).writesApplied := by
  have hpid : previewIdOf cfg env j (get_file_extension tn) = none := by
    unfold previewIdOf previewAttempt
    rcases hpf with h' | h' | h' | h'
    · simp [h']
    · simp [h']
    · simp [h']
    · cases hpu : env.previewUpload with
      | ok p => exact absurd hpu (h' p)
      | appErr m => simp [hpu]
      | exnErr m => simp [hpu]
  rw [swap_faces_code, swap_faces_body, swap_faces_writesApplied,
    swap_facesI_reaches cfg env j doc sn tn h]
  refine ⟨?_, ?_, ?_, ?_, ?_⟩
  · simp [runTransform, finalize, hrc, hout, hup, hcw]
  · simp [runTransform, finalize, hrc, hout, hup, hcw, bodyGet]
  · simp [runTransform, finalize, hrc, hout, hup, hcw, bodyGet]
  · simp [runTransform, finalize, hrc, hout, hup, hcw, bodyGet, hpid]
  · have hws : (runTransform cfg env j (get_file_extension tn)
        (Dir.source, mkSourceName j env.sourceTok (get_file_extension sn))
        (Dir.target, mkTargetName j env.targetTok (get_file_extension tn))
        [(j, mkUpdateData "processing" none)]).writesIssued =
        [(j, mkUpdateData "processing" none),
         completedUpd cfg env j (get_file_extension tn) rid] := by
      simp [runTransform, finalize, hrc, hout, hup, hcw]
    rw [hws]
    have hwc : completedUpd cfg env j (get_file_extension tn) rid =
        (j, { status := "completed", resultId := some rid, mediaPreviewId := none }) := by
      simp [completedUpd, hpid, truthy]
    unfold appliedOf
    refine List.mem_filter.2 ⟨?_, ?_⟩
    · rw [← hwc]; simp
    · simp [hcw]

/-- Witness for C8 at the concrete successful video run with ffmpeg absent. -/
theorem preview_failure_nonpropagating_witness :
    (swap_faces cfg0 envNoFfmpeg).code = 200 ∧
    bodyGet "status" (swap_faces cfg0 envNoFfmpeg).body = some (JVal.jstr "success") ∧
    bodyGet "resultId" (swap_faces cfg0 envNoFfmpeg).body = some (JVal.jstr "res1") ∧
    bodyGet "previewId" (swap_faces cfg0 envNoFfmpeg).body = some JVal.jnull ∧
    ("job1", { status := "completed", resultId := some "res1", mediaPreviewId := none })
      ∈ (swap_faces cfg0 envNoFfmpeg).writesApplied :=
  preview_failure_nonpropagating cfg0 envNoFfmpeg "job1" doc0
    "face.jpg" "clip.MP4" "res1"
    ⟨rfl, rfl, by decide, by decide, rfl, by decide, by decide, rfl, rfl, rfl, rfl⟩
    rfl rfl rfl rfl (Or.inr (Or.inl rfl))

/-- Claim C5 (amended): exceptions raised by the document store on the
`processing` update and on any `failed` terminal update are swallowed
inside `update_job_status` and never change the handler's response; but a
failure of the `completed` terminal update (a direct `update_document`
call) is caught by the upload `except` handlers instead: the job is then
marked `failed` and the handler answers 500 with the upload-failure body. -/
theorem status_write_failure_semantics
    (cfg : Config) (env : Env) (j : String) (doc : JobDoc) (sn tn rid m : String)
    (h : ReachesEngine cfg env j doc sn tn)
    (hrc : env.engine.returncode = 0) (hout : env.engine.outputCreated = true)
    (hup : env.resultUpload = CallRes.ok rid)
    (hcw : env.completedWrite = some m) :
    (∀ (cfg2 : Config) (env2 : Env) (b b' : Bool),
      (swap_faces cfg2
        { env2 with processingWriteFails := b, failedWriteFails := b' }).code =
        (swap_faces cfg2 env2).code ∧
      (swap_faces cfg2
        { env2 with processingWriteFails := b, failedWriteFails := b' }).body =
        (swap_faces cfg2 env2).body) ∧
    (swap_faces cfg env).code = 500 ∧
    failedUpd j ∈ (swap_faces cfg env).writesIssued ∧
    (swap_faces cfg env).body =
      [("error", JVal.jstr "Failed to upload result file."),
       ("details", JVal.jstr m)] := by
  refine ⟨fun cfg2 env2 b b' => ⟨rfl, rfl⟩, ?_, ?_, ?_⟩
  · rw [swap_faces_code, swap_facesI_reaches cfg env j doc sn tn h]
    simp [runTransform, finalize, hrc, hout, hup, hcw]
  · rw [swap_faces_writesIssued, swap_facesI_reaches cfg env j doc sn tn h]
    simp [runTransform, finalize, hrc, hout, hup, hcw]
  · rw [swap_faces_body, swap_facesI_reaches cfg env j doc sn tn h]
    simp [runTransform, finalize, hrc, hout, hup, hcw]

/-- Witness for the amended C5 at the concrete run whose completed-status
update raises. -/
theorem status_write_failure_semantics_witness :
    (∀ (cfg2 : Config) (env2 : Env) (b b' : Bool),
      (swap_faces cfg2
        { env2 with processingWriteFails := b, failedWriteFails := b' }).code =
        (swap_faces cfg2 env2).code ∧
      (swap_faces cfg2
        { env2 with processingWriteFails := b, failedWriteFails := b' }).body =
        (swap_faces cfg2 env2).body) ∧
    (swap_faces cfg0 envCompletedRaise).code = 500 ∧
    failedUpd "job1" ∈ (swap_faces cfg0 envCompletedRaise).writesIssued ∧
    (swap_faces cfg0 envCompletedRaise).body =
      [("error", JVal.jstr "Failed to upload result file."),
       ("details", JVal.jstr "db down")] :=
  status_write_failure_semantics cfg0 envCompletedRaise "job1" doc0
    "face.jpg" "clip.MP4" "res1" "db down"
    ⟨rfl, rfl, by decide, by decide, rfl, by decide, by decide, rfl, rfl, rfl, rfl⟩
    rfl rfl rfl rfl

/-- Counterexample to C5 as stated: two runs that differ only in whether
the completed-status document update raises produce different responses
(500 with the job marked failed, versus 200), so a status-write failure is
not always swallowed without effect on the outcome. -/
theorem completed_write_failure_changes_response :
    envCompletedRaise = { envHappyVideo with completedWrite := some "db down" } ∧
    (swap_faces cfg0 envCompletedRaise).code = 500 ∧
    (swap_faces cfg0 envHappyVideo).code = 200 ∧
    failedUpd "job1" ∈ (swap_faces cfg0 envCompletedRaise).writesIssued := by
  refine ⟨rfl, rfl, rfl, by decide⟩

/-- Claim C4 (code bug): on the concrete fully successful video run the
handler returns 200, the staged source, target and output files are gone,
but the generated preview gif survives the cleanup.  Line 287 of
`src/web.py` appends `preview_path` to `files_to_delete` before that local
variable is ever assigned — an `UnboundLocalError` swallowed by the preview
`except` clause — and the `finally` block then rebuilds `files_to_delete`
as `[face_path, media_path, output_path]`, so the preview file is never
deleted, contradicting the code's own `Add the preview path to cleanup
list` comment. -/
theorem preview_file_survives_cleanup :
    (swap_faces cfg0 envHappyVideo).code = 200 ∧
    previewPathOf envHappyVideo "job1" ∈ (swap_faces cfg0 envHappyVideo).filesCreated ∧
    (swap_faces cfg0 envHappyVideo).filesRemaining =
      [previewPathOf envHappyVideo "job1"] := by
  refine ⟨rfl, by decide, by decide⟩

/-- Splitting a character-list concatenation at a separator character that
occurs in neither prefix is unambiguous. -/
theorem append_sep_inj {c : Char} :
    ∀ a1 a2 r1 r2 : List Char, c ∉ a1 → c ∉ a2 →
      a1 ++ c :: r1 = a2 ++ c :: r2 → a1 = a2 ∧ r1 = r2 := by
  intro a1
  induction a1 with
  | nil =>
    intro a2 r1 r2 _ h2 h
    cases a2 with
    | nil =>
      simp only [List.nil_append, List.cons.injEq] at h
      exact ⟨rfl, h.2⟩
    | cons b bs =>
      simp only [List.nil_append, List.cons_append, List.cons.injEq] at h
      obtain ⟨hcb, -⟩ := h
      subst hcb
      exact absurd (List.mem_cons_self _ _) h2
  | cons a as ih =>
    intro a2 r1 r2 h1 h2 h
    cases a2 with
    | nil =>
      simp only [List.cons_append, List.nil_append, List.cons.injEq] at h
      obtain ⟨hac, -⟩ := h
      subst hac
      exact absurd (List.mem_cons_self _ _) h1
    | cons b bs =>
      simp only [List.cons_append, List.cons.injEq] at h
      obtain ⟨hab, htail⟩ := h
      subst hab
      obtain ⟨hh, ht⟩ := ih bs r1 r2
        (fun hm => h1 (List.mem_cons_of_mem _ hm))
        (fun hm => h2 (List.mem_cons_of_mem _ hm)) htail
      exact ⟨by rw [hh], ht⟩

/-- For job identifiers free of underscores and 32-character random tokens,
the source-file naming scheme is injective. -/
theorem mkSourceName_inj (j1 j2 t1 t2 e1 e2 : String)
    (h1 : '_' ∉ j1.data) (h2 : '_' ∉ j2.data)
    (hl1 : t1.length = 32) (hl2 : t2.length = 32)
    (h : mkSourceName j1 t1 e1 = mkSourceName j2 t2 e2) :
    j1 = j2 ∧ t1 = t2 ∧ e1 = e2 := by
  have hd := congrArg String.data h
  simp only [mkSourceName, String.data_append, List.append_assoc] at hd
  simp only [List.cons_append, List.nil_append] at hd
  obtain ⟨hj, ht⟩ := append_sep_inj j1.data j2.data _ _ h1 h2 hd
  simp only [List.cons.injEq, true_and] at ht
  obtain ⟨htt, hee⟩ := List.append_inj ht (by rw [← String.length, ← String.length, hl1, hl2])
  exact ⟨String.ext hj, String.ext htt, String.ext hee⟩

/-- For job identifiers free of underscores and 32-character random tokens,
the target-file naming scheme is injective. -/
theorem mkTargetName_inj (j1 j2 t1 t2 e1 e2 : String)
    (h1 : '_' ∉ j1.data) (h2 : '_' ∉ j2.data)
    (hl1 : t1.length = 32) (hl2 : t2.length = 32)
    (h : mkTargetName j1 t1 e1 = mkTargetName j2 t2 e2) :
    j1 = j2 ∧ t1 = t2 ∧ e1 = e2 := by
  have hd := congrArg String.data h
  simp only [mkTargetName, String.data_append, List.append_assoc] at hd
  simp only [List.cons_append, List.nil_append] at hd
  obtain ⟨hj, ht⟩ := append_sep_inj j1.data j2.data _ _ h1 h2 hd
  simp only [List.cons.injEq, true_and] at ht
  obtain ⟨htt, hee⟩ := List.append_inj ht (by rw [← String.length, ← String.length, hl1, hl2])
  exact ⟨String.ext hj, String.ext htt, String.ext hee⟩

/-- For job identifiers free of underscores and 32-character random tokens,
the output-file naming scheme is injective. -/
theorem mkOutputName_inj (j1 j2 t1 t2 e1 e2 : String)
    (h1 : '_' ∉ j1.data) (h2 : '_' ∉ j2.data)
    (hl1 : t1.length = 32) (hl2 : t2.length = 32)
    (h : mkOutputName j1 t1 e1 = mkOutputName j2 t2 e2) :
    j1 = j2 ∧ t1 = t2 ∧ e1 = e2 := by
  have hd := congrArg String.data h
  simp only [mkOutputName, String.data_append, List.append_assoc] at hd
  simp only [List.cons_append, List.nil_append, List.cons.injEq, true_and] at hd
  obtain ⟨hj, ht⟩ := append_sep_inj j1.data j2.data _ _ h1 h2 hd
  obtain ⟨htt, hee⟩ := List.append_inj ht (by rw [← String.length, ← String.length, hl1, hl2])
  exact ⟨String.ext hj, String.ext htt, String.ext hee⟩

/-- Claim C9 (amended): for two runs whose job identifiers contain no
underscore and whose random tokens have the 32-character `uuid4().hex`
length, distinct job identifiers or distinct tokens give distinct staged
file names within each category, and staged files of different categories
live in different staging directories, so their paths never collide. -/
theorem staged_names_injective_no_underscore
    (j1 j2 t1 t2 e1 e2 : String)
    (h1 : '_' ∉ j1.data) (h2 : '_' ∉ j2.data)
    (hl1 : t1.length = 32) (hl2 : t2.length = 32)
    (hne : j1 ≠ j2 ∨ t1 ≠ t2) :
    mkSourceName j1 t1 e1 ≠ mkSourceName j2 t2 e2 ∧
    mkTargetName j1 t1 e1 ≠ mkTargetName j2 t2 e2 ∧
    mkOutputName j1 t1 e1 ≠ mkOutputName j2 t2 e2 ∧
    ((Dir.source, mkSourceName j1 t1 e1) : LPath) ≠ (Dir.target, mkTargetName j2 t2 e2) ∧
    ((Dir.source, mkSourceName j1 t1 e1) : LPath) ≠ (Dir.output, mkOutputName j2 t2 e2) ∧
    ((Dir.target, mkTargetName j1 t1 e1) : LPath) ≠ (Dir.output, mkOutputName j2 t2 e2) := by
  refine ⟨?_, ?_, ?_, by simp, by simp, by simp⟩
  · intro h
    obtain ⟨hj, ht, -⟩ := mkSourceName_inj j1 j2 t1 t2 e1 e2 h1 h2 hl1 hl2 h
    rcases hne with hne | hne
    · exact hne hj
    · exact hne ht
  · intro h
    obtain ⟨hj, ht, -⟩ := mkTargetName_inj j1 j2 t1 t2 e1 e2 h1 h2 hl1 hl2 h
    rcases hne with hne | hne
    · exact hne hj
    · exact hne ht
  · intro h
    obtain ⟨hj, ht, -⟩ := mkOutputName_inj j1 j2 t1 t2 e1 e2 h1 h2 hl1 hl2 h
    rcases hne with hne | hne
    · exact hne hj
    · exact hne ht

/-- Witness for the amended C9 at two concrete runs with distinct
underscore-free job identifiers. -/
theorem staged_names_injective_no_underscore_witness :
    mkSourceName "jobA" tok32a ".jpg" ≠ mkSourceName "jobB" tok32a ".jpg" ∧
    mkTargetName "jobA" tok32a ".jpg" ≠ mkTargetName "jobB" tok32a ".jpg" ∧
    mkOutputName "jobA" tok32a ".jpg" ≠ mkOutputName "jobB" tok32a ".jpg" ∧
    ((Dir.source, mkSourceName "jobA" tok32a ".jpg") : LPath) ≠
      (Dir.target, mkTargetName "jobB" tok32a ".jpg") ∧
    ((Dir.source, mkSourceName "jobA" tok32a ".jpg") : LPath) ≠
      (Dir.output, mkOutputName "jobB" tok32a ".jpg") ∧
    ((Dir.target, mkTargetName "jobA" tok32a ".jpg") : LPath) ≠
      (Dir.output, mkOutputName "jobB" tok32a ".jpg") :=
  staged_names_injective_no_underscore "jobA" "jobB" tok32a tok32a ".jpg" ".jpg"
    (by decide) (by decide) (by decide) (by decide) (Or.inl (by decide))

/-- Counterexample to C9 as stated: with arbitrary job identifiers the
naming scheme is not injective — the runs with job ids `x` and
`x_source_<32 zeros>.a` (both with the same 32-character token, the second
with no extension, the first with the realizable extension
`.a_source_<32 zeros>`) produce the same staged source file name. -/
theorem staged_name_collision :
    mkSourceName "x" zeros32 (".a_source_" ++ zeros32) =
      mkSourceName ("x_source_" ++ zeros32 ++ ".a") zeros32 "" ∧
    "x" ≠ "x_source_" ++ zeros32 ++ ".a" ∧
    zeros32.length = 32 ∧
    get_file_extension ("f.a_source_" ++ zeros32) = ".a_source_" ++ zeros32 := by
  refine ⟨by decide, by decide, by decide, by decide⟩

/-- A request either clears the whole gate for some nonempty job id, or its
response code is not 200. -/
theorem swap_facesI_gate_cases (cfg : Config) (env : Env) :
    (∃ j, j ≠ "" ∧ swap_facesI cfg env = runPipeline cfg env j) ∨
      (swap_facesI cfg env).code ≠ 200 := by
  by_cases h1 : env.scriptExists = false
  · right; simp [swap_facesI, h1, finalize]
  · cases hp : env.payload with
    | parseErr m => right; simp [swap_facesI, h1, hp, finalize]
    | emptyData => right; simp [swap_facesI, h1, hp, finalize]
    | okData data =>
      cases hs : data.secret with
      | none => right; simp [swap_facesI, h1, hp, hs, finalize]
      | some s =>
        by_cases h2 : s = "" ∨ s ≠ cfg.secret
        · right; simp [swap_facesI, h1, hp, hs, h2, finalize]
        · cases hj : data.jobId with
          | none => right; simp [swap_facesI, h1, hp, hs, h2, hj, finalize]
          | some j =>
            by_cases h3 : j = ""
            · right; simp [swap_facesI, h1, hp, hs, h2, hj, h3, finalize]
            · left; exact ⟨j, h3, by simp [swap_facesI, h1, hp, hs, h2, hj, h3]⟩

/-- The job-record stage either proceeds into staging, or does not answer
200. -/
theorem runPipeline_cases (cfg : Config) (env : Env) (j : String) :
    runPipeline cfg env j = runStaging cfg env j ∨
      (runPipeline cfg env j).code ≠ 200 := by
  cases hf : env.fetchJob with
  | notFound404 => right; simp [runPipeline, hf, finalize]
  | appErr m => right; simp [runPipeline, hf, finalize]
  | exnErr m => right; simp [runPipeline, hf, finalize]
  | found doc =>
    by_cases hm : truthy doc.faceId = false ∨ truthy doc.mediaId = false
    · right; simp [runPipeline, hf, hm, finalize]
    · left; simp [runPipeline, hf, hm]

/-- The metadata stage either resolves both original file names and
proceeds into the download stage, or does not answer 200. -/
theorem runStaging_cases (cfg : Config) (env : Env) (j : String) :
    (∃ sn tn, env.sourceMeta = CallRes.ok sn ∧ env.targetMeta = CallRes.ok tn ∧
      runStaging cfg env j =
        runDownload cfg env j (get_file_extension tn)
          (Dir.source, mkSourceName j env.sourceTok (get_file_extension sn))
          (Dir.target, mkTargetName j env.targetTok (get_file_extension tn))
          [(j, mkUpdateData "processing" none)]) ∨
      (runStaging cfg env j).code ≠ 200 := by
  cases hsm : env.sourceMeta with
  | appErr m => right; simp [runStaging, hsm, finalize]
  | exnErr m => right; simp [runStaging, hsm, finalize]
  | ok sn =>
    cases htm : env.targetMeta with
    | appErr m => right; simp [runStaging, hsm, htm, finalize]
    | exnErr m => right; simp [runStaging, hsm, htm, finalize]
    | ok tn => left; exact ⟨sn, tn, rfl, rfl, by simp [runStaging, hsm, htm]⟩

/-- The download stage either proceeds into the transformation stage, or
does not answer 200. -/
theorem runDownload_cases (cfg : Config) (env : Env) (j e : String)
    (fp mp : LPath) (ws : List (String × UpdateData)) :
    runDownload cfg env j e fp mp ws = runTransform cfg env j e fp mp ws ∨
      (runDownload cfg env j e fp mp ws).code ≠ 200 := by
  cases hs : env.sourceDl with
  | appErr m => right; simp [runDownload, hs, finalize]
  | exnErr m => right; simp [runDownload, hs, finalize]
  | ok u =>
    cases ht : env.targetDl with
    | appErr m => right; simp [runDownload, hs, ht, finalize]
    | exnErr m => right; simp [runDownload, hs, ht, finalize]
    | ok u2 => left; simp [runDownload, hs, ht]

/-- A 200 answer from the transformation stage pins down the whole success
path: engine success, upload success, applied completed write, and the
exact response body. -/
theorem runTransform_code200 (cfg : Config) (env : Env) (j e : String)
    (fp mp : LPath) (ws : List (String × UpdateData))
    (h : (runTransform cfg env j e fp mp ws).code = 200) :
    env.engine.returncode = 0 ∧ env.engine.outputCreated = true ∧
    ∃ rid, env.resultUpload = CallRes.ok rid ∧ env.completedWrite = none ∧
      (runTransform cfg env j e fp mp ws).body =
        [("status", JVal.jstr "success"), ("jobId", JVal.jstr j),
         ("resultId", JVal.jstr rid),
         ("previewId",
           match previewIdOf cfg env j e with
           | some p => JVal.jstr p
           | none => JVal.jnull)] := by
  by_cases hc : env.engine.returncode = 0 ∧ env.engine.outputCreated = true
  · cases hru : env.resultUpload with
    | appErr m => simp [runTransform, hc, hru, finalize] at h
    | exnErr m => simp [runTransform, hc, hru, finalize] at h
    | ok rid =>
      cases hcw : env.completedWrite with
      | some m => simp [runTransform, hc, hru, hcw, finalize] at h
      | none =>
        exact ⟨hc.1, hc.2, rid, rfl, rfl,
          by simp [runTransform, hc, hru, hcw, finalize]⟩
  · simp [runTransform, hc, finalize] at h

/-- No preview identifier is obtained exactly when the preview step fails
somewhere: the output does not classify as video, ffmpeg is absent, gif
creation fails, or the preview upload raises. -/
theorem previewIdOf_none_iff (cfg : Config) (env : Env) (j e : String) :
    previewIdOf cfg env j e = none ↔
      ¬(is_video_file (outPathStr cfg env j e) = true ∧ env.ffmpegPresent = true ∧
        env.gifOk = true ∧ ∃ p, env.previewUpload = CallRes.ok p) := by
  unfold previewIdOf previewAttempt
  by_cases hv : is_video_file (outPathStr cfg env j e) = true
  · by_cases hf : env.ffmpegPresent = true
    · by_cases hg : env.gifOk = true
      · cases hpu : env.previewUpload <;> simp [hv, hf, hg, hpu]
      · simp [hv, hf, hg]
    · simp [hv, hf]
  · simp [hv]

/-- Claim C10: every 200 response carries exactly the keys `status`,
`jobId`, `resultId`, `previewId` in that order, and `previewId` is null
(present, not omitted) precisely when no preview was uploaded — in
particular whenever the output path's extension is outside the video
allow-list, ffmpeg is absent, gif creation failed, or the preview upload
raised. -/
theorem success_body_shape (cfg : Config) (env : Env)
    (h : (swap_faces cfg env).code = 200) :
    ∃ j rid pv tn,
      env.targetMeta = CallRes.ok tn ∧
      (swap_faces cfg env).body =
        [("status", JVal.jstr "success"), ("jobId", JVal.jstr j),
         ("resultId", JVal.jstr rid), ("previewId", pv)] ∧
      (pv = JVal.jnull ↔
        ¬(is_video_file (outPathStr cfg env j (get_file_extension tn)) = true ∧
          env.ffmpegPresent = true ∧ env.gifOk = true ∧
          ∃ p, env.previewUpload = CallRes.ok p)) := by
  rw [swap_faces_code] at h
  rw [swap_faces_body]
  rcases swap_facesI_gate_cases cfg env with ⟨j, hj, heq⟩ | hne
  · rw [heq] at h
    rcases runPipeline_cases cfg env j with heq2 | hne2
    · rw [heq2] at h
      rcases runStaging_cases cfg env j with ⟨sn, tn, hsm, htm, heq3⟩ | hne3
      · rw [heq3] at h
        rcases runDownload_cases cfg env j (get_file_extension tn)
            (Dir.source, mkSourceName j env.sourceTok (get_file_extension sn))
            (Dir.target, mkTargetName j env.targetTok (get_file_extension tn))
            [(j, mkUpdateData "processing" none)] with heq4 | hne4
        · rw [heq4] at h
          obtain ⟨-, -, rid, -, -, hbody⟩ := runTransform_code200 cfg env j
            (get_file_extension tn)
            (Dir.source, mkSourceName j env.sourceTok (get_file_extension sn))
            (Dir.target, mkTargetName j env.targetTok (get_file_extension tn))
            [(j, mkUpdateData "processing" none)] h
          refine ⟨j, rid,
            (match previewIdOf cfg env j (get_file_extension tn) with
             | some p => JVal.jstr p
             | none => JVal.jnull), tn, htm, ?_, ?_⟩
          · rw [heq, heq2, heq3, heq4]
            exact hbody
          · rw [← previewIdOf_none_iff cfg env j (get_file_extension tn)]
            cases previewIdOf cfg env j (get_file_extension tn) <;> simp
        · exact absurd h hne4
      · exact absurd h hne3
    · exact absurd h hne2
  · exact absurd h hne

/-- Witness for C10 at the concrete fully successful video run. -/
theorem success_body_shape_witness :
    (swap_faces cfg0 envHappyVideo).code = 200 ∧
    ∃ j rid pv tn,
      envHappyVideo.targetMeta = CallRes.ok tn ∧
      (swap_faces cfg0 envHappyVideo).body =
        [("status", JVal.jstr "success"), ("jobId", JVal.jstr j),
         ("resultId", JVal.jstr rid), ("previewId", pv)] ∧
      (pv = JVal.jnull ↔
        ¬(is_video_file (outPathStr cfg0 envHappyVideo j (get_file_extension tn)) = true ∧
          envHappyVideo.ffmpegPresent = true ∧ envHappyVideo.gifOk = true ∧
          ∃ p, envHappyVideo.previewUpload = CallRes.ok p)) :=
  ⟨rfl, success_body_shape cfg0 envHappyVideo rfl⟩

end FaceFusionApi
